import Mathlib

/-
  Verification development for the rental-property-management backend.

  The Python handlers are shallowly embedded: Firebase Realtime Database
  nodes become association lists from string keys to values, each handler
  becomes a pure state-passing function, and HTTP outcomes become
  status codes or Except values.  Every definition follows the source file
  named in its doc comment; definitions whose doc comment starts with
  "Modelled from the spec:" embed code that the source tree references but
  does not contain.
-/

namespace RMS

/-- Python dict / Firebase node lookup: first binding of the key, if any. -/
def lookupA {α : Type} : List (String × α) → String → Option α
  | [], _ => none
  | (k0, v) :: rest, k => if k0 = k then some v else lookupA rest k

/-- Python dict assignment semantics: overwrite the binding of the key in
place, or append a fresh binding at the end. -/
def setA {α : Type} : List (String × α) → String → α → List (String × α)
  | [], k, v => [(k, v)]
  | (k0, v0) :: rest, k, v =>
      if k0 = k then (k0, v) :: rest else (k0, v0) :: setA rest k v

/-- Python dict.pop(key, None): drop every binding of the key (dict keys are
unique, so at most one binding is dropped on dict-shaped lists). -/
def eraseA {α : Type} (l : List (String × α)) (k : String) : List (String × α) :=
  l.filter (fun kv => decide (kv.1 ≠ k))

/-- Firebase Reference.update semantics: fold each given binding into the
document, overwriting key by key. -/
def mergeA {α : Type} (doc updates : List (String × α)) : List (String × α) :=
  updates.foldl (fun d kv => setA d kv.1 kv.2) doc

/-- JSON-ish field values stored in database documents. -/
inductive FVal where
  | s : String → FVal
  | n : Int → FVal
  | q : Rat → FVal
  | b : Bool → FVal
  | strs : List String → FVal
  | null : FVal
deriving DecidableEq

/-- A database document: a Python dict of field values. -/
abbrev Doc := List (String × FVal)

/-- Python str.split(sep) for a single-character separator, on the
character list of the string; "".split(c) gives [""], and separators at the
ends produce empty components, exactly as in Python. -/
def splitCharList (c : Char) : List Char → List (List Char)
  | [] => [[]]
  | x :: xs =>
      let r := splitCharList c xs
      if x = c then [] :: r
      else
        match r with
        | [] => [[x]]
        | y :: ys => (x :: y) :: ys

/-- Python str.split for a single-character separator. -/
def pySplit (s : String) (c : Char) : List String :=
  (splitCharList c s.data).map (fun l => String.mk l)

/-- ASCII lower-casing of one character, as Python str.lower does on the
ASCII file-extension and search strings these handlers deal with. -/
def pyLowerChar (c : Char) : Char :=
  if 'A' ≤ c ∧ c ≤ 'Z' then Char.ofNat (c.toNat + 32) else c

/-- Python str.lower on the strings these handlers compare. -/
def pyLower (s : String) : String :=
  String.mk (s.data.map pyLowerChar)

/-- Whether the first list is an initial segment of the second. -/
def leadMatch : List Char → List Char → Bool
  | [], _ => true
  | _ :: _, [] => false
  | a :: as, b :: bs => a = b && leadMatch as bs

/-- Python substring membership (needle in hay) on character lists. -/
def hasSub : List Char → List Char → Bool
  | [], needle => needle.isEmpty
  | c :: rest, needle => leadMatch needle (c :: rest) || hasSub rest needle

/-- Python max on rationals: max(x, y) returns y exactly when y is greater. -/
def pyMax (x y : Rat) : Rat := if x < y then y else x

/- ===== app/fileupload.py ===== -/

/-- ALLOWED_EXTENSIONS from app/fileupload.py lines 11-15; dict.get with
default [] for unknown file types (line 19). -/
def ALLOWED_EXTENSIONS (file_type : String) : List String :=
  if file_type = "images" then ["png", "jpg", "jpeg", "gif", "bmp"]
  else if file_type = "documents" then ["pdf", "doc", "docx", "txt", "rtf"]
  else if file_type = "archives" then ["zip", "rar"]
  else []

/-- allowed_file from app/fileupload.py lines 17-19: the filename contains a
dot and the lower-cased text after its last dot is in the allow-list. -/
def allowed_file (filename : String) (file_type : String) : Bool :=
  filename.data.contains '.' &&
    (ALLOWED_EXTENSIONS file_type).contains
      (pyLower ((pySplit filename '.').getLastD filename))

/-- The multipart form request reaching POST /api/files/upload: presence of
the file part, its filename, and the optional form fields. -/
structure UploadRequest where
  hasFile : Bool
  filename : String
  user_id : Option String
  file_type : Option String
  folder_name : Option String
deriving DecidableEq

/-- Outcome of the upload route: HTTP status, whether a blob was written to
storage, and whether anything was written to the database. -/
structure UploadOutcome where
  status : Nat
  blobWritten : Bool
  dbWritten : Bool
deriving DecidableEq

/-- upload_file from app/fileupload.py lines 50-88.  storageOk stands for
upload_file_to_storage succeeding (lines 21-48); on storage failure the
route answers 500 and no blob exists.  The route never writes the database
(the metadata write at line 76 is only a comment). -/
def upload_file (req : UploadRequest) (storageOk : Bool) : UploadOutcome :=
  if ¬req.hasFile then ⟨400, false, false⟩
  else
    let file_type := req.file_type.getD "images"
    match req.user_id with
    | none => ⟨400, false, false⟩
    | some _ =>
        if req.filename = "" then ⟨400, false, false⟩
        else if allowed_file req.filename file_type then
          if storageOk then ⟨200, true, false⟩ else ⟨500, false, false⟩
        else ⟨400, false, false⟩

/- ===== CRUD.upload_lease_document (app/crud.py lines 415-459) ===== -/

/-- Modelled from the spec: the LeaseInfo model is imported by app/crud.py
from app.models but absent from the source tree; the spec describes a lease
as rent terms with a rent amount and a unit reference, which is all
upload_lease_document reads from it. -/
structure LeaseInfo where
  rent_amount : Rat
  unit_id : String
deriving DecidableEq

/-- A unit document under properties/{pid}/units/{uid} (only its fields). -/
abbrev UnitDoc := Doc

/-- The slice of the database that upload_lease_document touches:
tenants/{tid}/lease_info documents, properties/{pid}/units/{uid} documents,
and the paths of blobs written to the storage bucket. -/
structure LeaseState where
  tenants : List (String × Doc)
  properties : List (String × List (String × UnitDoc))
  blobs : List String
deriving DecidableEq

/-- The lease_info document written at app/crud.py lines 434-439: the
LeaseInfo fields plus the blob url and the upload date. -/
def leaseDocData (lease_info : LeaseInfo) (url now : String) : Doc :=
  [("rent_amount", FVal.q lease_info.rent_amount),
   ("unit_id", FVal.s lease_info.unit_id),
   ("lease_document_url", FVal.s url),
   ("document_upload_date", FVal.s now)]

/-- Firebase set at properties/{pid}/units/{uid}/status (app/crud.py line
446); set creates every missing node along the path. -/
def setUnitStatus (props : List (String × List (String × UnitDoc)))
    (pid uid : String) (v : FVal) : List (String × List (String × UnitDoc)) :=
  let units := (lookupA props pid).getD []
  let udoc := (lookupA units uid).getD []
  setA props pid (setA units uid (setA udoc "status" v))

/-- upload_lease_document from app/crud.py lines 415-459: write the blob,
set tenants/{tid}/lease_info, and, when unit_id is non-empty and splits on
the underscore into exactly two parts, set the unit's status to occupied.
bucketOk stands for the storage bucket being configured (line 425). -/
def upload_lease_document (st : LeaseState) (tenant_id filename : String)
    (lease_info : LeaseInfo) (url now : String) (bucketOk : Bool) :
    LeaseState × Except Nat Doc :=
  if ¬bucketOk then (st, Except.error 500)
  else
    let st1 := { st with blobs := st.blobs ++ ["leases/" ++ tenant_id ++ "/" ++ filename] }
    let lease_data := leaseDocData lease_info url now
    let st2 := { st1 with tenants := setA st1.tenants tenant_id lease_data }
    let st3 :=
      if lease_info.unit_id ≠ "" then
        let unit_parts := pySplit lease_info.unit_id '_'
        if unit_parts.length = 2 then
          let props := setUnitStatus st2.properties (unit_parts.headD "") lease_info.unit_id (FVal.s "occupied")
          { st2 with properties := props }
        else st2
      else st2
    (st3, Except.ok lease_data)

/-- Status field of the unit document at properties/{pid}/units/{uid}. -/
def getUnitStatus (st : LeaseState) (pid uid : String) : Option FVal :=
  (lookupA st.properties pid).bind (fun units =>
    (lookupA units uid).bind (fun udoc => lookupA udoc "status"))

/- ===== app/models.py enums ===== -/

/-- MaintenanceStatus from app/models.py lines 28-32: the enum defines
exactly the members PENDING, IN_PROGRESS, COMPLETED and CANCELLED. -/
inductive MaintenanceStatus where
  | pending
  | in_progress
  | completed
  | cancelled
deriving DecidableEq

/-- The .value string of each MaintenanceStatus member. -/
def MaintenanceStatus.value : MaintenanceStatus → String
  | .pending => "pending"
  | .in_progress => "in_progress"
  | .completed => "completed"
  | .cancelled => "cancelled"

/-- Python attribute access MaintenanceStatus.NAME: some member when the
enum defines it, none (an AttributeError at run time) when it does not. -/
def MaintenanceStatus.memberNamed : String → Option MaintenanceStatus
  | "PENDING" => some .pending
  | "IN_PROGRESS" => some .in_progress
  | "COMPLETED" => some .completed
  | "CANCELLED" => some .cancelled
  | _ => none

/-- UserRole from app/models.py lines 12-14: the enum defines exactly the
members ADMIN and TENANT. -/
inductive UserRole where
  | admin
  | tenant
deriving DecidableEq

/-- The .value string of each UserRole member. -/
def UserRole.value : UserRole → String
  | .admin => "admin"
  | .tenant => "tenant"

/-- Python attribute access UserRole.NAME: some member when the enum
defines it, none (an AttributeError at run time) when it does not. -/
def UserRole.memberNamed : String → Option UserRole
  | "ADMIN" => some .admin
  | "TENANT" => some .tenant
  | _ => none

/- ===== maintenance task management (app/crud.py lines 512-616) ===== -/

/-- One entry of the updates sub-collection of a maintenance request. -/
structure MaintUpdateEntry where
  message : String
  posted_by : String
  timestamp : String
deriving DecidableEq

/-- A maintenance_requests/{rid} document: the fields the task-management
handlers read and write. -/
structure MaintReqDoc where
  tenant_id : String
  title : String
  status : String
  assigned_to : Option String
  priority : Option String
  updated_at : Option String
  updates : List MaintUpdateEntry
deriving DecidableEq

/-- A users/{uid} document as read by assign_maintenance_task: its role. -/
structure UserDocM where
  role : String
deriving DecidableEq

/-- Modelled from the spec: a Notification entity (recipient, type, title,
message, read flag, deep link) as described in the data model; the
NotificationCreate model that app/crud.py imports is absent from the
source tree. -/
structure NotificationDoc where
  user_id : String
  ntype : String
  title : String
  message : String
  deep_link : String
  read : Bool
deriving DecidableEq

/-- The slice of the database the maintenance task handlers touch. -/
structure MaintState where
  maintenance_requests : List (String × MaintReqDoc)
  users : List (String × UserDocM)
  notifications : List NotificationDoc
deriving DecidableEq

/-- Modelled from the spec: CRUD.create_notification is called at
app/crud.py lines 552 and 601 but defined nowhere in the source tree; per
the spec a notification is one record stored for its recipient, so the
operation appends exactly one NotificationDoc. -/
def create_notification (st : MaintState) (n : NotificationDoc) : MaintState :=
  { st with notifications := st.notifications ++ [n] }

/-- assign_maintenance_task from app/crud.py lines 512-567.  The four
primary fields are written one Firebase set call at a time, then an update
entry is added, then the staff notification is created.  notifyOk stands
for the notification step succeeding; when it raises, the blanket except
turns the error into a 500 while the writes already executed persist.  A
missing request or staff member raises a 404 inside the try block, which
the same blanket except also rewraps as a 500. -/
def assign_maintenance_task (st : MaintState)
    (request_id staff_id priority now : String) (notifyOk : Bool) :
    MaintState × Except Nat MaintReqDoc :=
  match lookupA st.maintenance_requests request_id with
  | none => (st, Except.error 500)
  | some request_data =>
    match lookupA st.users staff_id with
    | none => (st, Except.error 500)
    | some staff_data =>
      if staff_data.role ≠ "staff" then (st, Except.error 500)
      else
        let updated := { request_data with
          assigned_to := some staff_id
          priority := some priority
          status := MaintenanceStatus.in_progress.value
          updated_at := some now }
        let entry : MaintUpdateEntry :=
          ⟨"Task assigned to staff member " ++ staff_id, "system", now⟩
        let updated2 := { updated with updates := updated.updates ++ [entry] }
        let reqs1 := setA st.maintenance_requests request_id updated2
        let st1 := { st with maintenance_requests := reqs1 }
        if notifyOk then
          let n : NotificationDoc :=
            ⟨staff_id, "task_assignment", "New Maintenance Task Assigned",
             "You have been assigned maintenance request: " ++ request_data.title,
             "/maintenance/" ++ request_id, false⟩
          (create_notification st1 n, Except.ok updated2)
        else (st1, Except.error 500)

/-- update_maintenance_status from app/crud.py lines 569-616.  After the
status and updated_at writes and the optional notes entry, line 599
evaluates MaintenanceStatus.RESOLVED and MaintenanceStatus.CLOSED; when the
enum lacks those members the attribute access raises and the blanket
except answers 500, so the tenant notification is never reached. -/
def update_maintenance_status (st : MaintState) (request_id : String)
    (status : MaintenanceStatus) (staff_id : String) (notes : Option String)
    (now : String) : MaintState × Except Nat MaintReqDoc :=
  match lookupA st.maintenance_requests request_id with
  | none => (st, Except.error 500)
  | some request_data =>
    let r1 := { request_data with status := status.value, updated_at := some now }
    let r2 :=
      match notes with
      | some msg => { r1 with updates := r1.updates ++ [⟨msg, staff_id, now⟩] }
      | none => r1
    let reqs1 := setA st.maintenance_requests request_id r2
    let st1 := { st with maintenance_requests := reqs1 }
    match MaintenanceStatus.memberNamed "RESOLVED",
          MaintenanceStatus.memberNamed "CLOSED" with
    | some resolvedMember, some closedMember =>
        if status = resolvedMember ∨ status = closedMember then
          let n : NotificationDoc :=
            ⟨request_data.tenant_id, "maintenance_update",
             "Maintenance Request Resolved",
             "Your maintenance request has been resolved.",
             "/maintenance/" ++ request_id, false⟩
          (create_notification st1 n, Except.ok r2)
        else (st1, Except.ok r2)
    | _, _ => (st1, Except.error 500)

/- ===== staff dashboard route (main.py lines 555-574) ===== -/

/-- get_staff_dashboard from main.py lines 555-574: the handler compares the
caller's role to UserRole.STAFF before anything else.  Evaluating that
attribute raises when the enum lacks a STAFF member; the handler's try
block does not cover the comparison, so the error reaches the generic
exception handler (main.py lines 781-787) and the response is 500.  The
handler reads the dashboard and writes nothing. -/
def get_staff_dashboard_status (role : String) : Nat :=
  match UserRole.memberNamed "STAFF" with
  | none => 500
  | some staffMember => if role ≠ staffMember.value then 403 else 200

/- ===== property management (app/crud.py lines 246-308) ===== -/

/-- PropertyCreate from app/models.py lines 67-76 (the type field holds the
PropertyType enum value string). -/
structure PropertyCreate where
  name : String
  address : String
  city : String
  state : String
  zip_code : String
  ptype : String
  total_units : Int
  year_built : Option Int
  amenities : List String
deriving DecidableEq

/-- Modelled from the spec: app/crud.py builds Property objects by field;
the field-holding Property model it imports is absent from the source tree,
whose models.py instead matches PropertyResponse (lines 223-235) with
exactly these fields. -/
structure Property where
  id : String
  name : String
  address : String
  city : String
  state : String
  zip_code : String
  ptype : String
  total_units : Int
  year_built : Option Int
  amenities : List String
  created_at : String
  updated_at : String
deriving DecidableEq

/-- Python getattr on a Property object by attribute name, none standing
for the None default used at app/crud.py line 286. -/
def propGetattr (p : Property) : String → Option FVal
  | "id" => some (FVal.s p.id)
  | "name" => some (FVal.s p.name)
  | "address" => some (FVal.s p.address)
  | "city" => some (FVal.s p.city)
  | "state" => some (FVal.s p.state)
  | "zip_code" => some (FVal.s p.zip_code)
  | "type" => some (FVal.s p.ptype)
  | "total_units" => some (FVal.n p.total_units)
  | "year_built" => some ((p.year_built.map FVal.n).getD FVal.null)
  | "amenities" => some (FVal.strs p.amenities)
  | "created_at" => some (FVal.s p.created_at)
  | "updated_at" => some (FVal.s p.updated_at)
  | _ => none

/-- property_obj.__dict__ as stored at app/crud.py line 260: every field of
the object, its id included. -/
def propertyDict (p : Property) : Doc :=
  [("id", FVal.s p.id),
   ("name", FVal.s p.name),
   ("address", FVal.s p.address),
   ("city", FVal.s p.city),
   ("state", FVal.s p.state),
   ("zip_code", FVal.s p.zip_code),
   ("type", FVal.s p.ptype),
   ("total_units", FVal.n p.total_units),
   ("year_built", (p.year_built.map FVal.n).getD FVal.null),
   ("amenities", FVal.strs p.amenities),
   ("created_at", FVal.s p.created_at),
   ("updated_at", FVal.s p.updated_at)]

/-- The properties collection of the database. -/
structure PropState where
  properties : List (String × Doc)
deriving DecidableEq

/-- create_property from app/crud.py lines 246-267: build the Property from
the payload plus a generated id and timestamps, store its whole __dict__ at
properties/{id}, and return the object. -/
def create_property (st : PropState) (property_data : PropertyCreate)
    (property_id now : String) : PropState × Property :=
  let property_obj : Property :=
    ⟨property_id, property_data.name, property_data.address,
     property_data.city, property_data.state, property_data.zip_code,
     property_data.ptype, property_data.total_units,
     property_data.year_built, property_data.amenities, now, now⟩
  let props := setA st.properties property_id (propertyDict property_obj)
  ({ st with properties := props }, property_obj)

/-- The call Property(id=prop_id, **prop_data) at app/crud.py line 280:
when prop_data itself carries an id key, Python rejects the duplicate
keyword argument before the constructor runs; otherwise the object is built
from the stored fields.  Either failure surfaces as the function's 500. -/
def buildProperty (prop_id : String) (prop_data : Doc) : Except Nat Property :=
  if (lookupA prop_data "id").isSome then Except.error 500
  else
    match lookupA prop_data "name", lookupA prop_data "address",
          lookupA prop_data "city", lookupA prop_data "state",
          lookupA prop_data "zip_code", lookupA prop_data "type",
          lookupA prop_data "total_units", lookupA prop_data "amenities",
          lookupA prop_data "created_at", lookupA prop_data "updated_at" with
    | some (FVal.s nm), some (FVal.s ad), some (FVal.s ci), some (FVal.s sta),
      some (FVal.s zc), some (FVal.s ty), some (FVal.n tu), some (FVal.strs am),
      some (FVal.s ca), some (FVal.s ua) =>
        let yb : Option Int :=
          match lookupA prop_data "year_built" with
          | some (FVal.n y) => some y
          | _ => none
        Except.ok ⟨prop_id, nm, ad, ci, sta, zc, ty, tu, yb, am, ca, ua⟩
    | _, _, _, _, _, _, _, _, _, _ => Except.error 500

/-- The filter loop of get_properties (app/crud.py lines 283-290): every
given key must match the object's attribute, a missing attribute reading as
None. -/
def property_matches_filters (p : Property) (filters : Doc) : Bool :=
  filters.all (fun kv => decide ((propGetattr p kv.1).getD FVal.null = kv.2))

/-- The search test of get_properties (app/crud.py lines 292-298): keep the
object when the lower-cased search text occurs in its name, address or
city. -/
def property_matches_search (p : Property) (search : String) : Bool :=
  let sl := (pyLower search).data
  hasSub (pyLower p.name).data sl || hasSub (pyLower p.address).data sl ||
    hasSub (pyLower p.city).data sl

/-- The per-document loop of get_properties: construct each Property, then
apply filters and search; the first construction failure aborts the whole
call. -/
def get_properties_loop (filters : Doc) (search : Option String) :
    List (String × Doc) → Except Nat (List Property)
  | [] => Except.ok []
  | (prop_id, prop_data) :: rest =>
    match buildProperty prop_id prop_data with
    | Except.error e => Except.error e
    | Except.ok p =>
      match get_properties_loop filters search rest with
      | Except.error e => Except.error e
      | Except.ok ps =>
        if property_matches_filters p filters then
          match search with
          | some s => if property_matches_search p s then Except.ok (p :: ps) else Except.ok ps
          | none => Except.ok (p :: ps)
        else Except.ok ps

/-- get_properties from app/crud.py lines 269-308. -/
def get_properties (st : PropState) (filters : Doc) (search : Option String) :
    Except Nat (List Property) :=
  get_properties_loop filters search st.properties

/- ===== maintenance requests: app/models.py and app/maintenance.py ===== -/

/-- The slice of the database touched by the Flask maintenance handlers:
untyped maintenance_requests/{rid} and users/{uid} documents. -/
structure M8State where
  maintenance_requests : List (String × Doc)
  users : List (String × Doc)
deriving DecidableEq

/-- MaintenanceRequest.create from app/models.py lines 159-173: store the
payload plus the generated id and timestamps, with status forced to
pending. -/
def MaintenanceRequest_create (st : M8State) (request_data : Doc)
    (request_id now : String) : M8State × Doc :=
  let d1 := setA request_data "id" (FVal.s request_id)
  let d2 := setA d1 "created_at" (FVal.s now)
  let d3 := setA d2 "updated_at" (FVal.s now)
  let d4 := setA d3 "status" (FVal.s "pending")
  let reqs := setA st.maintenance_requests request_id d4
  ({ st with maintenance_requests := reqs }, d4)

/-- update_maintenance_request from app/maintenance.py lines 105-148.  The
module imports storage_bucket but never db_ref, so line 112 reads the
unbound name db_ref and raises NameError before any database access (and
even past that, line 113 rebinds the local name request to the stored
dict, so reading request.json at line 128 would raise too); the blanket
except turns the error into a 500 response with nothing read or written,
for every caller, request and payload. -/
def update_maintenance_request (st : M8State) (current_user_id : String)
    (request_id : String) (payload : Doc) (now : String) : M8State × Nat :=
  (st, 500)

/- ===== user profile update (app/users.py and app/models.py) ===== -/

/-- The users collection of the database. -/
structure U9State where
  users : List (String × Doc)
deriving DecidableEq

/-- User.update from app/models.py lines 125-133: add updated_at to the
updates dict and merge it into the stored record (Firebase update creates
the record when it is missing). -/
def User_update (st : U9State) (user_id : String) (updates : Doc)
    (now : String) : U9State :=
  let updates2 := setA updates "updated_at" (FVal.s now)
  let merged := mergeA ((lookupA st.users user_id).getD []) updates2
  { st with users := setA st.users user_id merged }

/-- update_user from app/users.py lines 69-109: a missing caller record
makes the role read raise (500, nothing written); a caller who is neither
the target nor an admin gets 403; otherwise the payload is written through
User.update after its uid, email and created_at keys are popped. -/
def update_user (st : U9State) (current_user_id user_id : String)
    (payload : Doc) (now : String) : U9State × Nat :=
  match lookupA st.users current_user_id with
  | none => (st, 500)
  | some current_user =>
    if current_user_id ≠ user_id ∧ lookupA current_user "role" ≠ some (FVal.s "admin")
    then (st, 403)
    else
      let updates := eraseA (eraseA (eraseA payload "uid") "email") "created_at"
      (User_update st user_id updates now, 200)

/-- Field of the stored users/{uid} record, if any. -/
def userField (st : U9State) (user_id k : String) : Option FVal :=
  (lookupA st.users user_id).bind (fun d => lookupA d k)

/- ===== payments (app/payment.py) ===== -/

/-- A users/{uid} record as the payment routes read it: the balance field
(absent reads as 0) and the email used for the confirmation mail. -/
structure PayUserDoc where
  balance : Option Rat
  email : Option String
deriving DecidableEq

/-- A payments/{uid}/{pid} record written by the payment routes. -/
structure PaymentDoc where
  payment_id : String
  amount : Rat
  currency : String
  method : String
  status : String
  timestamp : String
  reference : String
deriving DecidableEq

/-- The slice of the database the payment routes touch. -/
structure PayState where
  users : List (String × PayUserDoc)
  payments : List (String × List (String × PaymentDoc))
deriving DecidableEq

/-- Store one payment record under payments/{uid}/{pid} (the push plus the
child set of the routes). -/
def pushPayment (st : PayState) (uid : String) (pid : String)
    (doc : PaymentDoc) : PayState :=
  let userPayments := (lookupA st.payments uid).getD []
  { st with payments := setA st.payments uid (setA userPayments pid doc) }

/-- The balance update shared by the three payment routes (app/payment.py
lines 78-83, 197-202 and 248-253): read the user record, take its balance
or 0, clamp the difference at 0, and merge the new balance back. -/
def applyBalance (st : PayState) (uid : String) (amount : Rat) : PayState :=
  let user_data := (lookupA st.users uid).getD ⟨none, none⟩
  let current_balance := user_data.balance.getD 0
  let new_balance := pyMax 0 (current_balance - amount)
  { st with users := setA st.users uid { user_data with balance := some new_balance } }

/-- confirm_stripe_payment from app/payment.py lines 47-103: require
truthy payment_intent_id, user_id and amount, require the retrieved intent
to be in the succeeded state, store the payment, then update the balance.
The confirmation email is best-effort and leaves the database alone. -/
def confirm_stripe_payment (st : PayState) (payment_intent_id : Option String)
    (user_id : Option String) (amount : Option Rat) (intent_status : String)
    (intent_currency : String) (payment_id now : String) : PayState × Nat :=
  match payment_intent_id, user_id, amount with
  | some pii, some uid, some amt =>
    if pii = "" ∨ uid = "" ∨ amt = 0 then (st, 400)
    else if intent_status = "succeeded" then
      let doc : PaymentDoc := ⟨payment_id, amt, intent_currency, "stripe", "completed", now, pii⟩
      (applyBalance (pushPayment st uid payment_id doc) uid amt, 200)
    else (st, 400)
  | _, _, _ => (st, 400)

/-- capture_paypal_order from app/payment.py lines 153-212: require truthy
orderID, user_id and amount; when the capture call answers 201, store the
payment and update the balance, otherwise answer 500. -/
def capture_paypal_order (st : PayState) (order_id : Option String)
    (user_id : Option String) (amount : Option Rat) (captureCode : Nat)
    (payment_id now : String) : PayState × Nat :=
  match order_id, user_id, amount with
  | some oid, some uid, some amt =>
    if oid = "" ∨ uid = "" ∨ amt = 0 then (st, 400)
    else if captureCode = 201 then
      let doc : PaymentDoc := ⟨payment_id, amt, "USD", "paypal", "completed", now, oid⟩
      (applyBalance (pushPayment st uid payment_id doc) uid amt, 200)
    else (st, 500)
  | _, _, _ => (st, 400)

/-- mpesa_payment_request from app/payment.py lines 214-261: require truthy
amount, phone_number and user_id; the payment is simulated as successful,
stored, and the balance updated. -/
def mpesa_payment_request (st : PayState) (amount : Option Rat)
    (phone_number : Option String) (user_id : Option String)
    (payment_id now : String) : PayState × Nat :=
  match amount, phone_number, user_id with
  | some amt, some phone, some uid =>
    if amt = 0 ∨ phone = "" ∨ uid = "" then (st, 400)
    else
      let doc : PaymentDoc := ⟨payment_id, amt, "KES", "mpesa", "completed", now, phone⟩
      (applyBalance (pushPayment st uid payment_id doc) uid amt, 200)
  | _, _, _ => (st, 400)

/-- The stored balance of users/{uid}, if any. -/
def userBalance (st : PayState) (uid : String) : Option Rat :=
  (lookupA st.users uid).bind (fun d => d.balance)

/-- Equality of handler outcomes is decidable. -/
instance : DecidableEq (Except Nat Doc) := fun a b =>
  match a, b with
  | Except.ok x, Except.ok y =>
      if h : x = y then isTrue (by rw [h]) else isFalse (by intro hh; cases hh; exact h rfl)
  | Except.error x, Except.error y =>
      if h : x = y then isTrue (by rw [h]) else isFalse (by intro hh; cases hh; exact h rfl)
  | Except.ok _, Except.error _ => isFalse (by intro hh; cases hh)
  | Except.error _, Except.ok _ => isFalse (by intro hh; cases hh)

/-- Demo state for C1: one pending request r1 of tenant t1 and one staff
user s1. -/
def maintDemo : MaintState :=
  ⟨[("r1", ⟨"t1", "Broken heater", "pending", none, none, none, []⟩)],
   [("s1", ⟨"staff"⟩)], []⟩

/-- Demo state for C6: one pending request r2 of tenant t2 and one staff
user s2. -/
def maintDemo2 : MaintState :=
  ⟨[("r2", ⟨"t2", "Leaking tap", "pending", none, none, none, []⟩)],
   [("s2", ⟨"staff"⟩)], []⟩

/-- Demo state for C10: one user u1 with balance 8. -/
def payDemo : PayState := ⟨[("u1", ⟨some 8, none⟩)], []⟩

/- ===== library lemmas about the dict operations ===== -/

theorem lookupA_setA_self {α : Type} (l : List (String × α)) (k : String) (v : α) :
    lookupA (setA l k v) k = some v := by
  induction l with
  | nil => simp [setA, lookupA]
  | cons kv rest ih =>
      obtain ⟨k0, v0⟩ := kv
      by_cases h : k0 = k
      · simp [setA, h, lookupA]
      · simp [setA, h, lookupA, ih]

theorem lookupA_setA_ne {α : Type} (l : List (String × α)) (k k' : String)
    (v : α) (h : k' ≠ k) : lookupA (setA l k v) k' = lookupA l k' := by
  have h2 : ¬(k = k') := fun hh => h hh.symm
  induction l with
  | nil => simp [setA, lookupA, h2]
  | cons kv rest ih =>
      obtain ⟨k0, v0⟩ := kv
      by_cases h0 : k0 = k
      · subst h0
        simp [setA, lookupA, h2]
      · simp [setA, h0, lookupA, ih]

theorem lookupA_mergeA_none {α : Type} (updates : List (String × α))
    (doc : List (String × α)) (k : String) (h : lookupA updates k = none) :
    lookupA (mergeA doc updates) k = lookupA doc k := by
  induction updates generalizing doc with
  | nil => simp [mergeA]
  | cons kv rest ih =>
      obtain ⟨k0, v0⟩ := kv
      have h0 : ¬(k0 = k) := by
        intro hh
        simp [lookupA, hh] at h
      have hrest : lookupA rest k = none := by
        simpa [lookupA, h0] using h
      have hstep : mergeA doc ((k0, v0) :: rest) = mergeA (setA doc k0 v0) rest := by
        simp [mergeA]
      have hne : k ≠ k0 := fun hh => h0 hh.symm
      rw [hstep, ih (setA doc k0 v0) hrest, lookupA_setA_ne doc k0 k v0 hne]

theorem lookupA_eraseA {α : Type} (l : List (String × α)) (k k' : String) :
    lookupA (eraseA l k') k = if k = k' then none else lookupA l k := by
  induction l with
  | nil => simp [eraseA, lookupA]
  | cons kv rest ih =>
      obtain ⟨k0, v0⟩ := kv
      by_cases h0 : k0 = k'
      · have hdrop : eraseA ((k0, v0) :: rest) k' = eraseA rest k' := by
          simp [eraseA, h0]
        rw [hdrop, ih]
        by_cases hk : k = k'
        · simp [hk]
        · have hk0 : ¬(k0 = k) := by
            subst h0
            exact fun hh => hk hh.symm
          simp [hk, lookupA, hk0]
      · have hkeep : eraseA ((k0, v0) :: rest) k' = (k0, v0) :: eraseA rest k' := by
          simp [eraseA, h0]
        rw [hkeep]
        by_cases hk0 : k0 = k
        · subst hk0
          simp [lookupA, h0]
        · simp [lookupA, hk0, ih]

/- ===== claim theorems ===== -/

/-- C4: for every upload request whose filename's extension is not in the
allow-list for the requested file type (or whose filename has no
extension), upload_file answers 400 and performs no blob write and no
database write. -/
theorem upload_file_rejects_disallowed_extension
    (req : UploadRequest) (storageOk : Bool)
    (h : allowed_file req.filename (req.file_type.getD "images") = false) :
    (upload_file req storageOk).status = 400 ∧
    (upload_file req storageOk).blobWritten = false ∧
    (upload_file req storageOk).dbWritten = false := by
  unfold upload_file
  cases hf : req.hasFile
  · simp
  · cases hu : req.user_id
    · simp
    · by_cases hn : req.filename = ""
      · simp [hn]
      · simp [hn, h]

/-- C4 witness: a png-typed upload of an exe file is refused with 400 and
nothing is written. -/
theorem upload_file_rejects_disallowed_extension_witness :
    allowed_file "malware.exe" ((some "images" : Option String).getD "images") = false ∧
    ((upload_file ⟨true, "malware.exe", some "u1", some "images", some "general"⟩ true).status = 400 ∧
     (upload_file ⟨true, "malware.exe", some "u1", some "images", some "general"⟩ true).blobWritten = false ∧
     (upload_file ⟨true, "malware.exe", some "u1", some "images", some "general"⟩ true).dbWritten = false) :=
  ⟨by decide,
   upload_file_rejects_disallowed_extension
     ⟨true, "malware.exe", some "u1", some "images", some "general"⟩ true (by decide)⟩

/-- C5: the staff dashboard route never answers 403 to an unauthorized
caller; because UserRole has no STAFF member, the role comparison raises
and every request, whatever the caller's role, is answered 500 by the
generic exception handler. -/
theorem get_staff_dashboard_always_500 (role : String) :
    get_staff_dashboard_status role = 500 ∧ get_staff_dashboard_status role ≠ 403 := by
  have h1 : get_staff_dashboard_status role = 500 := rfl
  refine ⟨h1, ?_⟩
  rw [h1]
  decide

/-- C5 witness: a tenant-role request to the staff dashboard gets 500, not
the 403 the specification promises. -/
theorem get_staff_dashboard_always_500_witness :
    get_staff_dashboard_status "tenant" = 500 ∧ get_staff_dashboard_status "tenant" ≠ 403 :=
  get_staff_dashboard_always_500 "tenant"

/-- C2: update_maintenance_status never succeeds and never notifies anyone:
for every state and every expressible status argument it answers 500 with
the notifications unchanged, because evaluating MaintenanceStatus.RESOLVED
at app/crud.py line 599 raises on the enum of app/models.py lines 28-32. -/
theorem update_maintenance_status_always_errors (st : MaintState)
    (request_id : String) (status : MaintenanceStatus) (staff_id : String)
    (notes : Option String) (now : String) :
    (update_maintenance_status st request_id status staff_id notes now).2 = Except.error 500 ∧
    (update_maintenance_status st request_id status staff_id notes now).1.notifications = st.notifications := by
  unfold update_maintenance_status
  cases hreq : lookupA st.maintenance_requests request_id
  · simp
  · cases notes <;> simp [MaintenanceStatus.memberNamed]

/-- C1: assigning an existing maintenance request to an existing staff user
sets its status to in_progress, records the staff id in assigned_to, and
appends exactly one notification, whose recipient is that staff id. -/
theorem assign_maintenance_task_assigns_and_notifies (st : MaintState)
    (request_id staff_id priority now : String) (req : MaintReqDoc) (u : UserDocM)
    (hreq : lookupA st.maintenance_requests request_id = some req)
    (hu : lookupA st.users staff_id = some u) (hrole : u.role = "staff") :
    ∃ req2 n,
      lookupA (assign_maintenance_task st request_id staff_id priority now true).1.maintenance_requests request_id = some req2 ∧
      req2.status = "in_progress" ∧
      req2.assigned_to = some staff_id ∧
      (assign_maintenance_task st request_id staff_id priority now true).1.notifications = st.notifications ++ [n] ∧
      n.user_id = staff_id := by
  have hrole2 : (u.role ≠ "staff") = False := by simp [hrole]
  simp only [assign_maintenance_task, hreq, hu, hrole2, if_false, create_notification]
  refine ⟨_, ⟨staff_id, "task_assignment", "New Maintenance Task Assigned",
    "You have been assigned maintenance request: " ++ req.title,
    "/maintenance/" ++ request_id, false⟩,
    lookupA_setA_self _ _ _, rfl, rfl, rfl, rfl⟩

/-- C1 witness: assigning r1 to s1 on the demo state. -/
theorem assign_maintenance_task_assigns_and_notifies_witness :
    lookupA maintDemo.maintenance_requests "r1" = some ⟨"t1", "Broken heater", "pending", none, none, none, []⟩ ∧
    ∃ req2 n,
      lookupA (assign_maintenance_task maintDemo "r1" "s1" "high" "2024-05-01" true).1.maintenance_requests "r1" = some req2 ∧
      req2.status = "in_progress" ∧
      req2.assigned_to = some "s1" ∧
      (assign_maintenance_task maintDemo "r1" "s1" "high" "2024-05-01" true).1.notifications = maintDemo.notifications ++ [n] ∧
      n.user_id = "s1" :=
  ⟨by decide,
   assign_maintenance_task_assigns_and_notifies maintDemo "r1" "s1" "high" "2024-05-01"
     ⟨"t1", "Broken heater", "pending", none, none, none, []⟩ ⟨"staff"⟩
     (by decide) (by decide) rfl⟩

/-- C6: when the notification step of assign_maintenance_task fails after
the assignment fields have been written, the call reports 500 but the four
primary writes (assigned_to, priority, status, updated_at) persist in the
stored request: the operation is not atomic and nothing is rolled back. -/
theorem assign_maintenance_task_partial_write_on_notify_failure (st : MaintState)
    (request_id staff_id priority now : String) (req : MaintReqDoc) (u : UserDocM)
    (hreq : lookupA st.maintenance_requests request_id = some req)
    (hu : lookupA st.users staff_id = some u) (hrole : u.role = "staff") :
    (assign_maintenance_task st request_id staff_id priority now false).2 = Except.error 500 ∧
    ∃ req2,
      lookupA (assign_maintenance_task st request_id staff_id priority now false).1.maintenance_requests request_id = some req2 ∧
      req2.assigned_to = some staff_id ∧
      req2.priority = some priority ∧
      req2.status = "in_progress" ∧
      req2.updated_at = some now := by
  have hrole2 : (u.role ≠ "staff") = False := by simp [hrole]
  simp only [assign_maintenance_task, hreq, hu, hrole2, if_false]
  exact ⟨rfl, _, lookupA_setA_self _ _ _, rfl, rfl, rfl, rfl⟩

/-- C6 witness: a failing notification step on the demo state still leaves
the assignment written. -/
theorem assign_maintenance_task_partial_write_witness :
    lookupA maintDemo2.users "s2" = some ⟨"staff"⟩ ∧
    ((assign_maintenance_task maintDemo2 "r2" "s2" "low" "2024-05-02" false).2 = Except.error 500 ∧
     ∃ req2,
       lookupA (assign_maintenance_task maintDemo2 "r2" "s2" "low" "2024-05-02" false).1.maintenance_requests "r2" = some req2 ∧
       req2.assigned_to = some "s2" ∧
       req2.priority = some "low" ∧
       req2.status = "in_progress" ∧
       req2.updated_at = some "2024-05-02") :=
  ⟨by decide,
   assign_maintenance_task_partial_write_on_notify_failure maintDemo2 "r2" "s2" "low" "2024-05-02"
     ⟨"t2", "Leaking tap", "pending", none, none, none, []⟩ ⟨"staff"⟩
     (by decide) (by decide) rfl⟩

/-- Reading back the unit status written by setUnitStatus. -/
theorem lookupA_setUnitStatus (props : List (String × List (String × UnitDoc)))
    (pid uid : String) (v : FVal) :
    (lookupA (setUnitStatus props pid uid v) pid).bind
      (fun units => (lookupA units uid).bind (fun udoc => lookupA udoc "status")) = some v := by
  unfold setUnitStatus
  rw [lookupA_setA_self]
  simp [lookupA_setA_self]

/-- C3 counterexample: the unit p_a_b of property p exists with status
vacant (its unit number a_b contains an underscore, which
add_unit_to_property allows); the lease upload referencing it succeeds yet
leaves its status vacant, because the handler only writes the status when
unit_id splits on the underscore into exactly two parts. -/
theorem upload_lease_document_skips_three_part_unit_id :
    (upload_lease_document ⟨[], [("p", [("p_a_b", [("status", FVal.s "vacant")])])], []⟩
        "t1" "lease.pdf" ⟨1000, "p_a_b"⟩ "url1" "2024-02-01" true).2
      = Except.ok (leaseDocData ⟨1000, "p_a_b"⟩ "url1" "2024-02-01") ∧
    getUnitStatus (upload_lease_document ⟨[], [("p", [("p_a_b", [("status", FVal.s "vacant")])])], []⟩
        "t1" "lease.pdf" ⟨1000, "p_a_b"⟩ "url1" "2024-02-01" true).1 "p" "p_a_b"
      = some (FVal.s "vacant") ∧
    getUnitStatus (upload_lease_document ⟨[], [("p", [("p_a_b", [("status", FVal.s "vacant")])])], []⟩
        "t1" "lease.pdf" ⟨1000, "p_a_b"⟩ "url1" "2024-02-01" true).1 "p" "p_a_b"
      ≠ some (FVal.s "occupied") := by
  refine ⟨by decide, by decide, by decide⟩

/-- C3 amended: a successful lease-document upload whose unit_id splits on
the underscore into exactly two parts leaves the referenced unit with
status occupied. -/
theorem upload_lease_document_two_parts_sets_occupied (st : LeaseState)
    (tenant_id filename : String) (lease_info : LeaseInfo) (url now : String)
    (h : (pySplit lease_info.unit_id '_').length = 2) :
    (upload_lease_document st tenant_id filename lease_info url now true).2
      = Except.ok (leaseDocData lease_info url now) ∧
    getUnitStatus (upload_lease_document st tenant_id filename lease_info url now true).1
      ((pySplit lease_info.unit_id '_').headD "") lease_info.unit_id
      = some (FVal.s "occupied") := by
  have hne : lease_info.unit_id ≠ "" := by
    intro hempty
    rw [hempty] at h
    simp [pySplit, splitCharList] at h
  have hred : upload_lease_document st tenant_id filename lease_info url now true
      = ({ st with
            blobs := st.blobs ++ ["leases/" ++ tenant_id ++ "/" ++ filename],
            tenants := setA st.tenants tenant_id (leaseDocData lease_info url now),
            properties := setUnitStatus st.properties
              ((pySplit lease_info.unit_id '_').headD "") lease_info.unit_id
              (FVal.s "occupied") },
         Except.ok (leaseDocData lease_info url now)) := by
    simp [upload_lease_document, hne, h]
  rw [hred]
  exact ⟨rfl, lookupA_setUnitStatus _ _ _ _⟩

/-- C3 amended witness: uploading a lease for unit p_1 of the empty state
marks that unit occupied. -/
theorem upload_lease_document_two_parts_witness :
    (pySplit "p_1" '_').length = 2 ∧
    ((upload_lease_document ⟨[], [], []⟩ "t1" "l.pdf" ⟨800, "p_1"⟩ "url2" "2024-03-01" true).2
        = Except.ok (leaseDocData ⟨800, "p_1"⟩ "url2" "2024-03-01") ∧
     getUnitStatus (upload_lease_document ⟨[], [], []⟩ "t1" "l.pdf" ⟨800, "p_1"⟩ "url2" "2024-03-01" true).1
        ((pySplit "p_1" '_').headD "") "p_1" = some (FVal.s "occupied")) :=
  ⟨by decide,
   upload_lease_document_two_parts_sets_occupied ⟨[], [], []⟩ "t1" "l.pdf" ⟨800, "p_1"⟩
     "url2" "2024-03-01" (by decide)⟩

/-- C7: after create_property stores a property, get_properties fails with
500 instead of returning it: the stored document carries an id key, and
rebuilding the object passes id twice. -/
theorem create_then_get_properties_errors (property_data : PropertyCreate)
    (property_id now : String) :
    get_properties (create_property ⟨[]⟩ property_data property_id now).1 [] none
      = Except.error 500 := by
  simp [create_property, get_properties, get_properties_loop, buildProperty,
    propertyDict, setA, lookupA]

/-- C8 counterexample: a maintenance request created through
MaintenanceRequest.create is stored with status pending, not submitted. -/
theorem maintenance_request_created_pending :
    lookupA (MaintenanceRequest_create ⟨[], []⟩ [("title", FVal.s "No hot water")] "r9" "2024-04-01").2 "status"
      = some (FVal.s "pending") ∧
    lookupA (MaintenanceRequest_create ⟨[], []⟩ [("title", FVal.s "No hot water")] "r9" "2024-04-01").2 "status"
      ≠ some (FVal.s "submitted") := by
  refine ⟨by decide, by decide⟩

/-- C8 amended: every maintenance request created through
MaintenanceRequest.create starts in the pending state, and the update
handler update_maintenance_request moves no status in any direction:
because it references the unbound name db_ref, every call answers 500 and
leaves every stored request, and so every status, exactly as it was. -/
theorem maintenance_status_lifecycle_amended :
    (∀ (st : M8State) (request_data : Doc) (request_id now : String),
      lookupA (MaintenanceRequest_create st request_data request_id now).2 "status"
        = some (FVal.s "pending")) ∧
    (∀ (st : M8State) (current_user_id request_id : String) (payload : Doc)
        (now rid2 : String),
      (lookupA (update_maintenance_request st current_user_id request_id payload now).1.maintenance_requests rid2).bind
        (fun d => lookupA d "status")
        = (lookupA st.maintenance_requests rid2).bind (fun d => lookupA d "status")) ∧
    (∀ (st : M8State) (current_user_id request_id : String) (payload : Doc) (now : String),
      (update_maintenance_request st current_user_id request_id payload now).2 = 500) := by
  refine ⟨?_, ?_, ?_⟩
  · intro st request_data request_id now
    simp only [MaintenanceRequest_create]
    exact lookupA_setA_self _ _ _
  · intro st current_user_id request_id payload now rid2
    rfl
  · intro st current_user_id request_id payload now
    rfl

/-- Identity fields survive update_user in every branch. -/
theorem userField_update_user (st : U9State) (current_user_id user_id : String)
    (payload : Doc) (now k : String) (hk_u : k ≠ "updated_at")
    (hnone : lookupA (eraseA (eraseA (eraseA payload "uid") "email") "created_at") k = none) :
    userField (update_user st current_user_id user_id payload now).1 user_id k
      = userField st user_id k := by
  unfold update_user
  cases hcu : lookupA st.users current_user_id
  · rfl
  · rename_i cu
    by_cases hauth : current_user_id ≠ user_id ∧ lookupA cu "role" ≠ some (FVal.s "admin")
    · simp [hauth]
    · simp only [hauth, if_false, ite_false]
      unfold User_update userField
      simp only
      rw [lookupA_setA_self]
      have hupd : lookupA (setA (eraseA (eraseA (eraseA payload "uid") "email") "created_at")
          "updated_at" (FVal.s now)) k = none := by
        rw [lookupA_setA_ne _ _ _ _ hk_u, hnone]
      simp only [Option.some_bind]
      rw [lookupA_mergeA_none _ _ _ hupd]
      cases hu : lookupA st.users user_id
      · simp [lookupA]
      · simp

/-- C9: whatever keys the payload carries, PUT /api/users/id leaves the
stored uid, email and created_at fields of the target user unchanged,
because update_user pops those keys before writing. -/
theorem update_user_preserves_identity_fields (st : U9State)
    (current_user_id user_id : String) (payload : Doc) (now : String) :
    userField (update_user st current_user_id user_id payload now).1 user_id "uid"
      = userField st user_id "uid" ∧
    userField (update_user st current_user_id user_id payload now).1 user_id "email"
      = userField st user_id "email" ∧
    userField (update_user st current_user_id user_id payload now).1 user_id "created_at"
      = userField st user_id "created_at" :=
  ⟨userField_update_user st current_user_id user_id payload now "uid" (by decide)
     (by simp [lookupA_eraseA]),
   userField_update_user st current_user_id user_id payload now "email" (by decide)
     (by simp [lookupA_eraseA]),
   userField_update_user st current_user_id user_id payload now "created_at" (by decide)
     (by simp [lookupA_eraseA])⟩

/-- The payment push leaves user records alone. -/
theorem userBalance_pushPayment (st : PayState) (uid pid : String)
    (doc : PaymentDoc) (u : String) :
    userBalance (pushPayment st uid pid doc) u = userBalance st u := rfl

/-- The balance update stores exactly the clamped difference. -/
theorem userBalance_applyBalance (st : PayState) (uid : String) (amt : Rat) :
    userBalance (applyBalance st uid amt) uid
      = some (pyMax 0 ((userBalance st uid).getD 0 - amt)) := by
  unfold applyBalance userBalance
  rw [lookupA_setA_self]
  cases hu : lookupA st.users uid <;> simp [hu]

/-- The clamp never goes below zero. -/
theorem pyMax_zero_nonneg (y : Rat) : 0 ≤ pyMax 0 y := by
  unfold pyMax
  split
  · exact le_of_lt (by assumption)
  · exact le_refl 0

/-- C10: every confirmed payment (Stripe confirm with a succeeded intent,
PayPal capture answered 201, M-Pesa request) stores the user's balance as
the previous balance minus the amount clamped at zero, so the stored
balance is never negative, whatever the amount. -/
theorem payments_clamp_balance_at_zero :
    (∀ (st : PayState) (pii uid : String) (amt : Rat) (icur pid now : String),
      pii ≠ "" → uid ≠ "" → amt ≠ 0 →
      userBalance (confirm_stripe_payment st (some pii) (some uid) (some amt) "succeeded" icur pid now).1 uid
        = some (pyMax 0 ((userBalance st uid).getD 0 - amt)) ∧
      0 ≤ pyMax 0 ((userBalance st uid).getD 0 - amt)) ∧
    (∀ (st : PayState) (oid uid : String) (amt : Rat) (pid now : String),
      oid ≠ "" → uid ≠ "" → amt ≠ 0 →
      userBalance (capture_paypal_order st (some oid) (some uid) (some amt) 201 pid now).1 uid
        = some (pyMax 0 ((userBalance st uid).getD 0 - amt)) ∧
      0 ≤ pyMax 0 ((userBalance st uid).getD 0 - amt)) ∧
    (∀ (st : PayState) (amt : Rat) (phone uid : String) (pid now : String),
      amt ≠ 0 → phone ≠ "" → uid ≠ "" →
      userBalance (mpesa_payment_request st (some amt) (some phone) (some uid) pid now).1 uid
        = some (pyMax 0 ((userBalance st uid).getD 0 - amt)) ∧
      0 ≤ pyMax 0 ((userBalance st uid).getD 0 - amt)) := by
  refine ⟨?_, ?_, ?_⟩
  · intro st pii uid amt icur pid now h1 h2 h3
    have hcond : (pii = "" ∨ uid = "" ∨ amt = 0) = False := by simp [h1, h2, h3]
    refine ⟨?_, pyMax_zero_nonneg _⟩
    simp only [confirm_stripe_payment, hcond, if_false, ite_false, if_true, ite_true]
    rw [userBalance_applyBalance, userBalance_pushPayment]
  · intro st oid uid amt pid now h1 h2 h3
    have hcond : (oid = "" ∨ uid = "" ∨ amt = 0) = False := by simp [h1, h2, h3]
    refine ⟨?_, pyMax_zero_nonneg _⟩
    simp only [capture_paypal_order, hcond, if_false, ite_false, if_true, ite_true]
    rw [userBalance_applyBalance, userBalance_pushPayment]
  · intro st amt phone uid pid now h1 h2 h3
    have hcond : (amt = 0 ∨ phone = "" ∨ uid = "") = False := by simp [h1, h2, h3]
    refine ⟨?_, pyMax_zero_nonneg _⟩
    simp only [mpesa_payment_request, hcond, if_false, ite_false, if_true, ite_true]
    rw [userBalance_applyBalance, userBalance_pushPayment]

/-- C10 witness: on the demo state with balance 8, a payment of 5 through
each gateway stores the clamped balance. -/
theorem payments_clamp_balance_witness :
    (5 : Rat) ≠ 0 ∧
    userBalance (confirm_stripe_payment payDemo (some "pi1") (some "u1") (some 5) "succeeded" "usd" "p1" "t0").1 "u1"
      = some (pyMax 0 ((userBalance payDemo "u1").getD 0 - 5)) ∧
    userBalance (capture_paypal_order payDemo (some "o1") (some "u1") (some 5) 201 "p2" "t0").1 "u1"
      = some (pyMax 0 ((userBalance payDemo "u1").getD 0 - 5)) ∧
    userBalance (mpesa_payment_request payDemo (some 5) (some "0700000001") (some "u1") "p3" "t0").1 "u1"
      = some (pyMax 0 ((userBalance payDemo "u1").getD 0 - 5)) :=
  ⟨by decide,
   (payments_clamp_balance_at_zero.1 payDemo "pi1" "u1" 5 "usd" "p1" "t0"
     (by decide) (by decide) (by decide)).1,
   (payments_clamp_balance_at_zero.2.1 payDemo "o1" "u1" 5 "p2" "t0"
     (by decide) (by decide) (by decide)).1,
   (payments_clamp_balance_at_zero.2.2 payDemo 5 "0700000001" "u1" "p3" "t0"
     (by decide) (by decide) (by decide)).1⟩

end RMS
